import Mathlib

/-!
Verification of the QGA wrapper (`src/qga_wrapper.py`).

This file shallowly embeds the transport/framing layer (`QGAConnection`) and the
execute-then-poll layer (`QGAClient`) of the source file, and proves the spec
claims about them.  JSON values decoded by `json.loads` are modelled by the
inductive `Json`; decoded JSON objects (Python dicts) are modelled as
association lists `List (String × Json)` where a duplicated key keeps the last
occurrence, as `json.loads` does.  Exceptions are modelled by `Except PyError`.
-/

namespace QGAW

/-- A JSON value as decoded by `json.loads`.  The protocol only carries integral
numbers, so numbers are modelled as `Int`. -/
inductive Json where
  | null
  | bool (b : Bool)
  | num (n : Int)
  | str (s : String)
  | arr (xs : List Json)
  | obj (fields : List (String × Json))

/-- Key lookup in a decoded JSON object.  `json.loads` builds a Python dict, so
a duplicated key keeps the LAST occurrence; callers along a claim only use
duplicate-free objects. -/
def pyLookup (fs : List (String × Json)) (k : String) : Option Json :=
  match fs with
  | [] => none
  | (k', v) :: rest =>
      match pyLookup rest k with
      | some w => some w
      | none => if k' = k then some v else none

/-- Models `d.get(k, default)` on a decoded JSON object. -/
def pyGet (fs : List (String × Json)) (k : String) (default : Json) : Json :=
  (pyLookup fs k).getD default

/-- Python truthiness of a value decoded from JSON (`if status.get(...)`). -/
def jsonTruthy : Json → Bool
  | .null => false
  | .bool b => b
  | .num n => n != 0
  | .str s => !s.isEmpty
  | .arr xs => !xs.isEmpty
  | .obj fs => !fs.isEmpty

/-- The exceptions the wrapper can raise.  The source (lines 22-34) defines the
base class `QGAError` and exactly two subclasses, `QGAConnectionError` and
`QGAProtocolError`; there is no timeout subclass.  `attributeError` models an
uncaught Python `AttributeError` from calling `.get` on a non-dict value. -/
inductive PyError where
  | qgaError (msg : String)
  | qgaConnectionError (msg : String)
  | qgaProtocolError (msg : String)
  | attributeError
deriving DecidableEq, Repr

/-- Whether the error is one of the proper subclasses of `QGAError` defined by
the source (`QGAConnectionError`, `QGAProtocolError`), as opposed to the base
`QGAError` itself or a non-QGA exception. -/
def PyError.isProperQGASubclass : PyError → Bool
  | .qgaConnectionError _ => true
  | .qgaProtocolError _ => true
  | _ => false

/-- Decimal digits of a natural number, as Python's `str` renders it. -/
def natChars (n : Nat) : List Char :=
  if h : n < 10 then [Char.ofNat (48 + n)]
  else natChars (n / 10) ++ [Char.ofNat (48 + n % 10)]
decreasing_by exact Nat.div_lt_self (by omega) (by omega)

/-- Python's `str` of an integer. -/
def intChars (n : Int) : List Char :=
  if n < 0 then '-' :: natChars (-n).toNat else natChars n.toNat

/-- One hex digit, lowercase, as produced by `json.dumps` escapes. -/
def hexDigit (n : Nat) : Char :=
  if n < 10 then Char.ofNat (48 + n) else Char.ofNat (87 + n)

/-- A `\uXXXX` escape for a code point below 0x10000. -/
def uEscape (n : Nat) : List Char :=
  ['\\', 'u', hexDigit (n / 4096 % 16), hexDigit (n / 256 % 16),
   hexDigit (n / 16 % 16), hexDigit (n % 16)]

/-- How `json.dumps` (default options: `ensure_ascii=True`) renders one
character of a string: the two-character escapes for quote, backslash and
common control characters, `\uXXXX` for other control characters and for
non-ASCII characters (a surrogate pair above the BMP), and the character
itself otherwise. -/
def escapeChar (c : Char) : List Char :=
  if c = '"' then ['\\', '"']
  else if c = '\\' then ['\\', '\\']
  else if c = '\n' then ['\\', 'n']
  else if c = '\r' then ['\\', 'r']
  else if c = '\t' then ['\\', 't']
  else if c.toNat = 8 then ['\\', 'b']
  else if c.toNat = 12 then ['\\', 'f']
  else if c.toNat < 32 then uEscape c.toNat
  else if c.toNat < 127 then [c]
  else if c.toNat < 65536 then uEscape c.toNat
  else uEscape (55296 + (c.toNat - 65536) / 1024) ++ uEscape (56320 + (c.toNat - 65536) % 1024)

/-- The `json.dumps` rendering of a string, including the surrounding quotes. -/
def escapeString (s : String) : List Char :=
  '"' :: List.flatten (s.data.map escapeChar) ++ ['"']

mutual

/-- Models `json.dumps` with its default options (separators `", "` and `": "`,
`ensure_ascii=True`, insertion order preserved), at the character level; every
produced character is ASCII, so characters coincide with the UTF-8 bytes that
`.encode('utf-8')` then produces. -/
def dumpsJson : Json → List Char
  | .null => "null".data
  | .bool true => "true".data
  | .bool false => "false".data
  | .num n => intChars n
  | .str s => escapeString s
  | .arr xs => '[' :: dumpsArr xs ++ [']']
  | .obj fs => Char.ofNat 123 :: dumpsObj fs ++ [Char.ofNat 125]

/-- Comma-separated rendering of a JSON array's elements. -/
def dumpsArr : List Json → List Char
  | [] => []
  | [x] => dumpsJson x
  | x :: y :: xs => dumpsJson x ++ ',' :: ' ' :: dumpsArr (y :: xs)

/-- Comma-separated rendering of a JSON object's fields. -/
def dumpsObj : List (String × Json) → List Char
  | [] => []
  | [(k, v)] => escapeString k ++ ':' :: ' ' :: dumpsJson v
  | (k, v) :: p :: fs =>
      escapeString k ++ ':' :: ' ' :: dumpsJson v ++ ',' :: ' ' :: dumpsObj (p :: fs)

end

/-- How CPython `repr` renders one character of a string inside single quotes:
backslash, the quote itself and common control characters get two-character
escapes, other control characters get `\xXX`; printable characters stand for
themselves (approximation: CPython also escapes some non-ASCII code points and
switches quote style when the string contains a single quote; no claim reaches
those corners). -/
def reprEscChar (c : Char) : List Char :=
  if c = '\\' then ['\\', '\\']
  else if c.toNat = 39 then ['\\', Char.ofNat 39]
  else if c = '\n' then ['\\', 'n']
  else if c = '\r' then ['\\', 'r']
  else if c = '\t' then ['\\', 't']
  else if c.toNat < 32 then ['\\', 'x', hexDigit (c.toNat / 16 % 16), hexDigit (c.toNat % 16)]
  else [c]

mutual

/-- CPython `repr` of a value decoded from JSON: `None`/`True`/`False` for the
constants, decimal for integers, single-quoted strings, `[...]` for lists and
`\x7b'k': v\x7d` for dicts. -/
def pyRepr : Json → List Char
  | .null => "None".data
  | .bool true => "True".data
  | .bool false => "False".data
  | .num n => intChars n
  | .str s => Char.ofNat 39 :: List.flatten (s.data.map reprEscChar) ++ [Char.ofNat 39]
  | .arr xs => '[' :: pyReprArr xs ++ [']']
  | .obj fs => Char.ofNat 123 :: pyReprObj fs ++ [Char.ofNat 125]

/-- Comma-separated `repr` of a list's elements. -/
def pyReprArr : List Json → List Char
  | [] => []
  | [x] => pyRepr x
  | x :: y :: xs => pyRepr x ++ ',' :: ' ' :: pyReprArr (y :: xs)

/-- Comma-separated `repr` of a dict's items. -/
def pyReprObj : List (String × Json) → List Char
  | [] => []
  | [(k, v)] => pyRepr (.str k) ++ ':' :: ' ' :: pyRepr v
  | (k, v) :: p :: fs =>
      pyRepr (.str k) ++ ':' :: ' ' :: pyRepr v ++ ',' :: ' ' :: pyReprObj (p :: fs)

end

/-- Python `str()` of a value decoded from JSON, as interpolated by an f-string:
a string stands for itself, every other value renders via `repr`-style
rendering (exact for the scalars). -/
def pyStr (v : Json) : String :=
  match v with
  | .str s => s
  | v => String.mk (pyRepr v)

/-! ## QGAConnection.send_command: request building (lines 92-98) -/

/-- Python truthiness of the `arguments` parameter (`if arguments:` at line 94):
`None` and the empty dict are falsy. -/
def pyTruthyArgs (arguments : Option (List (String × Json))) : Bool :=
  match arguments with
  | none => false
  | some l => !l.isEmpty

/-- Lines 93-95: `request = \x7b"execute": command\x7d` and, when `arguments` is
truthy, `request["arguments"] = arguments`; dict insertion order preserved. -/
def requestObj (command : String) (arguments : Option (List (String × Json))) :
    List (String × Json) :=
  if pyTruthyArgs arguments then
    [("execute", .str command), ("arguments", .obj (arguments.getD []))]
  else
    [("execute", .str command)]

/-- Line 98: `request_json = json.dumps(request) + "\n"` followed by
`.encode('utf-8')`; the characters produced are all ASCII, so they are exactly
the wire bytes. -/
def encodeRequest (command : String) (arguments : Option (List (String × Json))) :
    List Char :=
  dumpsJson (.obj (requestObj command arguments)) ++ ['\n']

/-! ## QGAConnection.send_command: reply classification (lines 151-156) -/

/-- Lines 151-156 of `send_command`, applied to a successfully decoded JSON
object `response`: if `"error" in response`, build
`error_msg = response["error"].get("desc", "Unknown error")` and raise
`QGAProtocolError(f"QGA error: \x7berror_msg\x7d")`; calling `.get` on a
non-dict error value raises `AttributeError`.  Otherwise `return response` —
the WHOLE decoded reply object, whether or not it has a `"return"` key. -/
def classifyReply (response : List (String × Json)) :
    Except PyError (List (String × Json)) :=
  match pyLookup response "error" with
  | some (.obj efs) =>
      let errorMsg : String :=
        match pyLookup efs "desc" with
        | some d => pyStr d
        | none => "Unknown error"
      .error (.qgaProtocolError ("QGA error: " ++ errorMsg))
  | some _ => .error .attributeError
  | none => .ok response

/-! ## Disconnect (lines 67-72 and 198-202) -/

/-- The connection state: `sockOpen` models `self._sock is not None`. -/
structure ConnState where
  sockOpen : Bool
deriving DecidableEq, Repr

/-- Models `QGAConnection.disconnect` (lines 67-72): `if self._sock: close; None`.
The body has no raise path, so the result is always `Except.ok`. -/
def connectionDisconnect (s : ConnState) : Except PyError ConnState :=
  .ok (if s.sockOpen then { sockOpen := false } else s)

/-- The client state: `connected` models `self._connection`. -/
structure ClientState where
  connected : Option ConnState
deriving DecidableEq, Repr

/-- Models `QGAClient.disconnect` (lines 198-202): `if self._connection:` call its
`disconnect` (which never fails) and set it to `None`; otherwise do nothing. -/
def clientDisconnect (c : ClientState) : Except PyError ClientState :=
  match c.connected with
  | some conn =>
      match connectionDisconnect conn with
      | .ok _ => .ok { connected := none }
      | .error e => .error e
  | none => .ok c

/-! ## QGAConnection.send_command: receive loop (lines 106-142) -/

/-- One outcome of a `recv` call on the socket: a nonempty chunk of bytes, an
orderly close (`b""`), a `socket.timeout`, or another `socket.error`. -/
inductive RecvEvent where
  | chunk (data : List Char)
  | closed
  | timedOut
  | ioError
deriving Repr

/-- Line 124: `b'\n' in response_data or response_data.endswith(b'}')`. -/
def bufLooksTerminated (buf : List Char) : Bool :=
  buf.contains '\n' || buf.getLast? == some (Char.ofNat 125)

/-- The receive loop of `send_command` (lines 106-142), parameterised by
`parseOk`, which models whether `json.loads` succeeds on the accumulated
buffer, and driven by a script of `recv` outcomes (an exhausted script behaves
as a deadline expiry).  The first component of the result is the socket's
timeout value after the loop: the loop sets it to `0.1` before the short
secondary read and restores it to the configured value `cfg` in a `finally`
block on every path out of that read. -/
def recvLoop (cfg : ℚ) (parseOk : List Char → Bool) :
    List RecvEvent → List Char → ℚ → ℚ × Except PyError (List Char)
  | [], _, t => (t, .error (.qgaConnectionError "Timeout waiting for response"))
  | .timedOut :: _, _, t => (t, .error (.qgaConnectionError "Timeout waiting for response"))
  | .ioError :: _, _, t => (t, .error (.qgaConnectionError "Failed to receive response"))
  | .closed :: _, buf, t => (t, .ok buf)
  | .chunk data :: rest, buf, t =>
      if parseOk (buf ++ data) then (t, .ok (buf ++ data))
      else if bufLooksTerminated (buf ++ data) then
        match rest with
        | [] => (cfg, .ok (buf ++ data))
        | .timedOut :: _ => (cfg, .ok (buf ++ data))
        | .closed :: _ => (cfg, .ok (buf ++ data))
        | .ioError :: _ => (cfg, .error (.qgaConnectionError "Failed to receive response"))
        | .chunk extra :: rest2 => recvLoop cfg parseOk rest2 (buf ++ data ++ extra) cfg
      else
        recvLoop cfg parseOk rest (buf ++ data) t

/-! ## QGAClient: exec_command / get_exec_status / run_command -/

/-- Lines 309-310 of `exec_command`: from the decoded reply to the
`guest-exec` call, `return response.get("return", \x7b\x7d).get("pid")` — an
absent `"pid"` yields `None`, a non-dict `"return"` value raises
`AttributeError`. -/
def execCommandPid (reply : List (String × Json)) : Except PyError (Option Json) :=
  match classifyReply reply with
  | .error e => .error e
  | .ok resp =>
      match pyGet resp "return" (.obj []) with
      | .obj rfs => .ok (pyLookup rfs "pid")
      | _ => .error .attributeError

/-- The wire request `get_exec_status` sends for a given pid (line 323):
`send_command("guest-exec-status", \x7b"pid": pid\x7d)`; a `None` pid is
serialised as JSON `null`. -/
def execStatusRequest (pid : Option Json) : List Char :=
  encodeRequest "guest-exec-status" (some [("pid", pid.getD .null)])

/-- Lines 323-324 of `get_exec_status`: classify the decoded reply, then
`return response.get("return", \x7b\x7d)`. -/
def getExecStatus (reply : List (String × Json)) : Except PyError Json :=
  match classifyReply reply with
  | .error e => .error e
  | .ok resp => .ok (pyGet resp "return" (.obj []))

/-- The result dict built by `run_command` (lines 355-373); `exitcode` is kept
as a JSON value because `status.get("exitcode", -1)` can return any value. -/
structure RunResult where
  exitcode : Json
  exited : Bool
  stdout : String
  stderr : String

/-- Models `base64.b64decode(v).decode('utf-8')` applied to a stream field value:
only a string can be decoded, and the decoder itself (parameter `dec`,
modelling the two stdlib calls) may fail.  `none` models any raised
exception. -/
def decodeStream (dec : String → Option String) (v : Json) : Option String :=
  match v with
  | .str s => dec s
  | _ => none

/-- Lines 355-373 of `run_command`: build the result dict for an exited
status.  `exitcode` is `status.get("exitcode", -1)`; each of `out-data` /
`err-data`, when present, is decoded, and a decode failure leaves the stream
as `""` and records the `logger.warning` call (second component). -/
def buildResult (dec : String → Option String) (status : List (String × Json)) :
    RunResult × List String :=
  let exitcode := pyGet status "exitcode" (.num (-1))
  let stdoutPart : String × List String :=
    match pyLookup status "out-data" with
    | none => ("", [])
    | some v =>
        match decodeStream dec v with
        | some t => (t, [])
        | none => ("", ["Failed to decode stdout"])
  let stderrPart : String × List String :=
    match pyLookup status "err-data" with
    | none => ("", [])
    | some v =>
        match decodeStream dec v with
        | some t => (t, [])
        | none => ("", ["Failed to decode stderr"])
  (⟨exitcode, true, stdoutPart.1, stderrPart.1⟩, stdoutPart.2 ++ stderrPart.2)

/-- The message of line 381:
`f"Command execution timeout after \x7bretries * self.poll_interval\x7d seconds"`.
The product is modelled in exact rational arithmetic (Python computes it in
floating point, which only perturbs the rendered digits). -/
def timeoutMessage (elapsed : ℚ) : String :=
  "Command execution timeout after " ++ toString elapsed ++ " seconds"

/-- The polling loop of `run_command` (lines 349-381): while
`retries < max_poll_retries`, fetch a status (the outcome of the `retries`-th
`get_exec_status` call is `statusAt retries`); `if status.get("exited", False):`
return the built result, else sleep and increment `retries`.  When the bound is
exhausted, raise the BASE `QGAError` with the timeout message.  A non-dict
status makes `status.get` raise `AttributeError`.  The `remaining` argument is
`max_poll_retries - retries`, so the loop is entered with
`remaining = max_poll_retries`. -/
def runCommandLoop (dec : String → Option String) (statusAt : Nat → Except PyError Json)
    (pollInterval : ℚ) : Nat → Nat → Except PyError (RunResult × List String)
  | retries, 0 => .error (.qgaError (timeoutMessage ((retries : ℚ) * pollInterval)))
  | retries, remaining + 1 =>
      match statusAt retries with
      | .error e => .error e
      | .ok status =>
          match status with
          | .obj sfs =>
              if jsonTruthy (pyGet sfs "exited" (.bool false)) then
                .ok (buildResult dec sfs)
              else
                runCommandLoop dec statusAt pollInterval (retries + 1) remaining
          | _ => .error .attributeError

/-- Instrumented twin of `runCommandLoop` counting how many `get_exec_status`
calls the loop performs; `runCommandLoop_polls_fst` proves it computes the same
outcome. -/
def runCommandLoopPolls (dec : String → Option String) (statusAt : Nat → Except PyError Json)
    (pollInterval : ℚ) : Nat → Nat → Except PyError (RunResult × List String) × Nat
  | retries, 0 => (.error (.qgaError (timeoutMessage ((retries : ℚ) * pollInterval))), 0)
  | retries, remaining + 1 =>
      match statusAt retries with
      | .error e => (.error e, 1)
      | .ok status =>
          match status with
          | .obj sfs =>
              if jsonTruthy (pyGet sfs "exited" (.bool false)) then
                (.ok (buildResult dec sfs), 1)
              else
                let r := runCommandLoopPolls dec statusAt pollInterval (retries + 1) remaining
                (r.1, r.2 + 1)
          | _ => (.error .attributeError, 1)

/-- Models `run_command` (lines 326-381): launch via `exec_command` (its decoded reply
is `execReply`), extract the pid, then poll.  The environment is modelled by
`statusAgent`, giving the decoded reply to the `i`-th status poll as a function
of the request bytes sent for it; every poll sends `execStatusRequest pid`. -/
def runCommand (dec : String → Option String) (execReply : List (String × Json))
    (statusAgent : List Char → Nat → List (String × Json))
    (pollInterval : ℚ) (maxPollRetries : Nat) :
    Except PyError (RunResult × List String) :=
  match execCommandPid execReply with
  | .error e => .error e
  | .ok pid =>
      runCommandLoop dec
        (fun i => getExecStatus (statusAgent (execStatusRequest pid) i))
        pollInterval 0 maxPollRetries

/-- Every character of the list is ASCII and is not the terminator. -/
def asciiNoNL (l : List Char) : Prop :=
  ∀ ch ∈ l, ch.toNat < 128 ∧ ch ≠ '\n'

instance asciiNoNLDecidable (l : List Char) : Decidable (asciiNoNL l) :=
  List.decidableBAll _ l

/-! ## Serializer character lemmas -/

theorem asciiNoNL_nil : asciiNoNL [] := by
  intro ch h
  cases h

theorem asciiNoNL_append_iff {a b : List Char} :
    asciiNoNL (a ++ b) ↔ asciiNoNL a ∧ asciiNoNL b := by
  constructor
  · intro h
    exact ⟨fun ch hc => h ch (List.mem_append.mpr (Or.inl hc)),
           fun ch hc => h ch (List.mem_append.mpr (Or.inr hc))⟩
  · rintro ⟨h1, h2⟩ ch hc
    rcases List.mem_append.mp hc with h | h
    · exact h1 ch h
    · exact h2 ch h

theorem asciiNoNL_cons_iff {c : Char} {l : List Char} :
    asciiNoNL (c :: l) ↔ (c.toNat < 128 ∧ c ≠ '\n') ∧ asciiNoNL l := by
  constructor
  · intro h
    exact ⟨h c (List.mem_cons_self c l), fun ch hc => h ch (List.mem_cons_of_mem _ hc)⟩
  · rintro ⟨hc, hl⟩ ch hch
    rcases List.mem_cons.mp hch with rfl | h
    · exact hc
    · exact hl ch h

theorem asciiNoNL_flatten {ls : List (List Char)} (h : ∀ l ∈ ls, asciiNoNL l) :
    asciiNoNL ls.flatten := by
  intro ch hch
  rcases List.mem_flatten.mp hch with ⟨l, hl, hcl⟩
  exact h l hl ch hcl

theorem hexDigit_ok (n : Nat) (h : n < 16) : (hexDigit n).toNat < 128 ∧ hexDigit n ≠ '\n' := by
  interval_cases n <;> exact ⟨by decide, by decide⟩

theorem asciiNoNL_uEscape (n : Nat) : asciiNoNL (uEscape n) := by
  have h1 := hexDigit_ok (n / 4096 % 16) (Nat.mod_lt _ (by omega))
  have h2 := hexDigit_ok (n / 256 % 16) (Nat.mod_lt _ (by omega))
  have h3 := hexDigit_ok (n / 16 % 16) (Nat.mod_lt _ (by omega))
  have h4 := hexDigit_ok (n % 16) (Nat.mod_lt _ (by omega))
  rw [uEscape]
  simp only [asciiNoNL_cons_iff, and_assoc]
  exact ⟨by decide, by decide, by decide, by decide, h1.1, h1.2, h2.1, h2.2,
    h3.1, h3.2, h4.1, h4.2, asciiNoNL_nil⟩

theorem digitChar_ok (d : Nat) (h : d < 10) :
    (Char.ofNat (48 + d)).toNat < 128 ∧ Char.ofNat (48 + d) ≠ '\n' := by
  interval_cases d <;> exact ⟨by decide, by decide⟩

theorem asciiNoNL_natChars (n : Nat) : asciiNoNL (natChars n) := by
  induction n using Nat.strong_induction_on with
  | _ n ih =>
    rw [natChars]
    split
    · rename_i h
      exact asciiNoNL_cons_iff.mpr ⟨digitChar_ok n h, asciiNoNL_nil⟩
    · rename_i h
      rw [asciiNoNL_append_iff]
      refine ⟨ih (n / 10) (Nat.div_lt_self (by omega) (by omega)), ?_⟩
      exact asciiNoNL_cons_iff.mpr ⟨digitChar_ok (n % 10) (Nat.mod_lt _ (by omega)), asciiNoNL_nil⟩

theorem asciiNoNL_intChars (n : Int) : asciiNoNL (intChars n) := by
  rw [intChars]
  split
  · exact asciiNoNL_cons_iff.mpr ⟨by decide, asciiNoNL_natChars _⟩
  · exact asciiNoNL_natChars _

theorem asciiNoNL_escapeChar (c : Char) : asciiNoNL (escapeChar c) := by
  unfold escapeChar
  by_cases h1 : c = '"'
  case pos => rw [if_pos h1]; decide
  case neg =>
  rw [if_neg h1]
  by_cases h2 : c = '\\'
  case pos => rw [if_pos h2]; decide
  case neg =>
  rw [if_neg h2]
  by_cases h3 : c = '\n'
  case pos => rw [if_pos h3]; decide
  case neg =>
  rw [if_neg h3]
  by_cases h4 : c = '\r'
  case pos => rw [if_pos h4]; decide
  case neg =>
  rw [if_neg h4]
  by_cases h5 : c = '\t'
  case pos => rw [if_pos h5]; decide
  case neg =>
  rw [if_neg h5]
  by_cases h6 : c.toNat = 8
  case pos => rw [if_pos h6]; decide
  case neg =>
  rw [if_neg h6]
  by_cases h7 : c.toNat = 12
  case pos => rw [if_pos h7]; decide
  case neg =>
  rw [if_neg h7]
  by_cases h8 : c.toNat < 32
  case pos => rw [if_pos h8]; exact asciiNoNL_uEscape _
  case neg =>
  rw [if_neg h8]
  by_cases h9 : c.toNat < 127
  case pos =>
    rw [if_pos h9]
    exact asciiNoNL_cons_iff.mpr ⟨⟨by omega, h3⟩, asciiNoNL_nil⟩
  case neg =>
  rw [if_neg h9]
  by_cases h10 : c.toNat < 65536
  case pos => rw [if_pos h10]; exact asciiNoNL_uEscape _
  case neg =>
  rw [if_neg h10]
  exact asciiNoNL_append_iff.mpr ⟨asciiNoNL_uEscape _, asciiNoNL_uEscape _⟩

theorem asciiNoNL_escapeString (s : String) : asciiNoNL (escapeString s) := by
  rw [escapeString]
  simp only [asciiNoNL_cons_iff, asciiNoNL_append_iff, and_assoc]
  refine ⟨by decide, by decide, ?_, by decide, by decide, asciiNoNL_nil⟩
  refine asciiNoNL_flatten ?_
  intro l hl
  rcases List.mem_map.mp hl with ⟨c, _, rfl⟩
  exact asciiNoNL_escapeChar c

theorem asciiNoNL_dumpsArr_of (xs : List Json) (h : ∀ x ∈ xs, asciiNoNL (dumpsJson x)) :
    asciiNoNL (dumpsArr xs) := by
  induction xs with
  | nil => exact asciiNoNL_nil
  | cons x rest ih =>
    cases rest with
    | nil =>
      rw [dumpsArr]
      exact h x (by simp)
    | cons y ys =>
      rw [dumpsArr]
      simp only [asciiNoNL_append_iff, asciiNoNL_cons_iff, and_assoc]
      exact ⟨h x (by simp), by decide, by decide, by decide, by decide,
        ih (fun z hz => h z (List.mem_cons_of_mem _ hz))⟩

theorem asciiNoNL_dumpsObj_of (fs : List (String × Json))
    (h : ∀ p ∈ fs, asciiNoNL (dumpsJson p.2)) : asciiNoNL (dumpsObj fs) := by
  induction fs with
  | nil => exact asciiNoNL_nil
  | cons p rest ih =>
    obtain ⟨k, v⟩ := p
    cases rest with
    | nil =>
      rw [dumpsObj]
      simp only [asciiNoNL_append_iff, asciiNoNL_cons_iff, and_assoc]
      exact ⟨asciiNoNL_escapeString k, by decide, by decide, by decide, by decide,
        h (k, v) (by simp)⟩
    | cons q qs =>
      rw [dumpsObj]
      simp only [asciiNoNL_append_iff, asciiNoNL_cons_iff, and_assoc]
      exact ⟨asciiNoNL_escapeString k, by decide, by decide, by decide, by decide,
        h (k, v) (by simp), by decide, by decide, by decide, by decide,
        ih (fun z hz => h z (List.mem_cons_of_mem _ hz))⟩

theorem asciiNoNL_dumpsJson_aux : ∀ (n : Nat) (j : Json), sizeOf j ≤ n →
    asciiNoNL (dumpsJson j) := by
  intro n
  induction n using Nat.strong_induction_on with
  | _ n ih =>
    intro j hj
    match j with
    | .null => rw [dumpsJson]; decide
    | .bool true => rw [dumpsJson]; decide
    | .bool false => rw [dumpsJson]; decide
    | .num m => rw [dumpsJson]; exact asciiNoNL_intChars m
    | .str s => rw [dumpsJson]; exact asciiNoNL_escapeString s
    | .arr xs =>
      rw [dumpsJson]
      simp only [asciiNoNL_cons_iff, asciiNoNL_append_iff, and_assoc]
      refine ⟨by decide, by decide, ?_, by decide, by decide, asciiNoNL_nil⟩
      refine asciiNoNL_dumpsArr_of xs ?_
      intro x hx
      have hlt : sizeOf x < sizeOf (Json.arr xs) := by
        have := List.sizeOf_lt_of_mem hx
        simp only [Json.arr.sizeOf_spec]
        omega
      exact ih (sizeOf x) (lt_of_lt_of_le hlt hj) x le_rfl
    | .obj fs =>
      rw [dumpsJson]
      simp only [asciiNoNL_cons_iff, asciiNoNL_append_iff, and_assoc]
      refine ⟨by decide, by decide, ?_, by decide, by decide, asciiNoNL_nil⟩
      refine asciiNoNL_dumpsObj_of fs ?_
      intro p hp
      have hlt : sizeOf p.2 < sizeOf (Json.obj fs) := by
        have h1 := List.sizeOf_lt_of_mem hp
        obtain ⟨k, v⟩ := p
        simp only [Json.obj.sizeOf_spec, Prod.mk.sizeOf_spec] at *
        omega
      exact ih (sizeOf p.2) (lt_of_lt_of_le hlt hj) p.2 le_rfl

theorem asciiNoNL_dumpsJson (j : Json) : asciiNoNL (dumpsJson j) :=
  asciiNoNL_dumpsJson_aux (sizeOf j) j le_rfl

/-! ## Polling loop lemmas -/

theorem runCommandLoopPolls_fst (dec : String → Option String)
    (statusAt : Nat → Except PyError Json) (p : ℚ) :
    ∀ (k r : Nat), (runCommandLoopPolls dec statusAt p r k).1 = runCommandLoop dec statusAt p r k := by
  intro k
  induction k with
  | zero => intro r; rfl
  | succ k ih =>
    intro r
    rw [runCommandLoopPolls, runCommandLoop]
    cases hs : statusAt r with
    | error e => rfl
    | ok status =>
      cases status with
      | obj sfs =>
        by_cases hex : jsonTruthy (pyGet sfs "exited" (.bool false))
        · simp [hex]
        · simp [hex, ih]
      | null => rfl
      | bool b => rfl
      | num m => rfl
      | str s => rfl
      | arr xs => rfl

theorem runCommandLoopPolls_timeout (dec : String → Option String)
    (statusAt : Nat → Except PyError Json) (p : ℚ) :
    ∀ (k r : Nat),
      (∀ i, r ≤ i → i < r + k → ∃ sfs, statusAt i = .ok (.obj sfs) ∧
          jsonTruthy (pyGet sfs "exited" (.bool false)) = false) →
      runCommandLoopPolls dec statusAt p r k =
        (.error (.qgaError (timeoutMessage (((r + k : Nat) : ℚ) * p))), k) := by
  intro k
  induction k with
  | zero => intro r h; rfl
  | succ k ih =>
    intro r h
    obtain ⟨sfs, hs, hex⟩ := h r le_rfl (by omega)
    have hrec := ih (r + 1) (fun i h1 h2 => h i (by omega) (by omega))
    have hcast : r + 1 + k = r + (k + 1) := by omega
    rw [hcast] at hrec
    rw [runCommandLoopPolls, hs]
    simp only [hex, Bool.false_eq_true, if_false, hrec]

/-! ## Claim theorems -/

/-- C1 counterexample: the code checks only for the `"error"` key.  A reply
with NEITHER a `"return"` nor an `"error"` key (here the empty object) is
returned without raising, where the claim demands a Malformed classification
raising `QGAProtocolError`; and for a reply with only a `"return"` key the
code returns the WHOLE reply object, not the value under `"return"`. -/
theorem classifyReply_neither_key_no_raise :
    classifyReply [] = .ok [] ∧
    classifyReply [("return", Json.num 7)] = .ok [("return", Json.num 7)] :=
  ⟨rfl, rfl⟩

/-- C1 (amended): `send_command` classifies a decoded reply by the presence of
the `"error"` key alone.  A reply without an `"error"` key — whether or not a
`"return"` key is present — is returned whole, without raising; a reply with
an `"error"` key raises `QGAProtocolError`, also when `"return"` is present
too, carrying the error's `desc` (or `"Unknown error"` when `desc` is
absent). -/
theorem sendCommand_reply_classification :
    (∀ response : List (String × Json), pyLookup response "error" = none →
        classifyReply response = .ok response) ∧
    (∀ (response efs : List (String × Json)) (d : String),
        pyLookup response "error" = some (.obj efs) →
        pyLookup efs "desc" = some (.str d) →
        classifyReply response = .error (.qgaProtocolError ("QGA error: " ++ d))) ∧
    (∀ (response efs : List (String × Json)),
        pyLookup response "error" = some (.obj efs) →
        pyLookup efs "desc" = none →
        classifyReply response = .error (.qgaProtocolError "QGA error: Unknown error")) := by
  refine ⟨?_, ?_, ?_⟩
  · intro r h
    simp [classifyReply, h]
  · intro r efs d h1 h2
    simp [classifyReply, h1, h2, pyStr]
  · intro r efs h1 h2
    simp [classifyReply, h1, h2]

/-- C1 witness: the amended classification at concrete replies. -/
theorem sendCommand_reply_classification_w :
    classifyReply [("return", Json.obj [])] = .ok [("return", Json.obj [])] ∧
    classifyReply [("return", Json.num 1), ("error", Json.obj [("desc", Json.str "boom")])] =
      .error (.qgaProtocolError ("QGA error: " ++ "boom")) ∧
    classifyReply [("error", Json.obj [])] =
      .error (.qgaProtocolError "QGA error: Unknown error") :=
  ⟨sendCommand_reply_classification.1 _ rfl,
   sendCommand_reply_classification.2.1 _ [("desc", Json.str "boom")] "boom" rfl rfl,
   sendCommand_reply_classification.2.2 _ [] rfl rfl⟩

/-- C2 counterexample: the source defines no distinct timeout error type.
When the poll bound (here 2 polls at interval 1/10) is exhausted, line 381
raises the BASE `QGAError` itself, which is not a proper subclass of the
shared base the way `QGAConnectionError` and `QGAProtocolError` are. -/
theorem runCommand_timeout_not_distinct_type :
    runCommandLoop (fun _ => none) (fun _ => .ok (.obj [])) (1/10) 0 2 =
      .error (.qgaError (timeoutMessage (1/5 : ℚ))) ∧
    PyError.isProperQGASubclass (.qgaError (timeoutMessage (1/5 : ℚ))) = false := by
  have h := runCommandLoopPolls_timeout (fun _ => none) (fun _ => .ok (.obj [])) (1/10) 2 0
      (fun i h1 h2 => ⟨[], rfl, rfl⟩)
  have hf := runCommandLoopPolls_fst (fun _ => none) (fun _ => .ok (.obj [])) (1/10) 2 0
  have hq : (((0 + 2 : Nat)) : ℚ) * (1/10) = 1/5 := by norm_num
  rw [hq] at h
  exact ⟨by rw [← hf, h], rfl⟩

/-- C2 (amended): with `max_poll_retries = N`, if every status returned by
`get_exec_status` reports `exited` falsy, `run_command` fails after exactly N
poll attempts by raising the BASE `QGAError` (the code defines no distinct
timeout subclass) whose message reports `N * poll_interval` elapsed; the loop
is bounded, never hanging silently. -/
theorem runCommand_poll_bound (dec : String → Option String)
    (statusAgent : List Char → Nat → List (String × Json)) (p : ℚ) (N : Nat)
    (h : ∀ i, i < N → ∃ sfs,
        getExecStatus (statusAgent (execStatusRequest (some (.num 42))) i) = .ok (.obj sfs) ∧
        jsonTruthy (pyGet sfs "exited" (.bool false)) = false) :
    runCommand dec [("return", .obj [("pid", .num 42)])] statusAgent p N =
      .error (.qgaError (timeoutMessage ((N : ℚ) * p))) ∧
    (runCommandLoopPolls dec
        (fun i => getExecStatus (statusAgent (execStatusRequest (some (.num 42))) i))
        p 0 N).2 = N ∧
    PyError.isProperQGASubclass (.qgaError (timeoutMessage ((N : ℚ) * p))) = false := by
  have hpolls := runCommandLoopPolls_timeout dec
      (fun i => getExecStatus (statusAgent (execStatusRequest (some (.num 42))) i)) p N 0
      (fun i h1 h2 => h i (by omega))
  have h0N : (0 + N : Nat) = N := Nat.zero_add N
  rw [h0N] at hpolls
  have hfst := runCommandLoopPolls_fst dec
      (fun i => getExecStatus (statusAgent (execStatusRequest (some (.num 42))) i)) p N 0
  have hpid : execCommandPid [("return", Json.obj [("pid", Json.num 42)])] =
      .ok (some (.num 42)) := rfl
  refine ⟨?_, ?_, rfl⟩
  · simp only [runCommand, hpid]
    rw [← hfst, hpolls]
  · rw [hpolls]

/-- C2 witness: the amended poll bound at a concrete never-exited agent. -/
theorem runCommand_poll_bound_w :
    runCommand (fun _ => none) [("return", Json.obj [("pid", Json.num 42)])]
        (fun _ _ => [("return", Json.obj [("exited", Json.bool false)])]) (1/10) 2 =
      .error (.qgaError (timeoutMessage (((2 : Nat) : ℚ) * (1/10)))) ∧
    (runCommandLoopPolls (fun _ => none)
        (fun i => getExecStatus ((fun (_ : List Char) (_ : Nat) =>
          [("return", Json.obj [("exited", Json.bool false)])]) (execStatusRequest (some (.num 42))) i))
        (1/10) 0 2).2 = 2 := by
  have h := runCommand_poll_bound (fun _ => none)
      (fun _ _ => [("return", Json.obj [("exited", Json.bool false)])]) (1/10) 2
      (fun i hi => ⟨[("exited", Json.bool false)], rfl, rfl⟩)
  exact ⟨h.1, h.2.1⟩

/-- C3 counterexample: passing a SUPPLIED but empty arguments mapping produces
a request without an `"arguments"` key (Python `if arguments:` is false for an
empty dict), contradicting "present if and only if an arguments mapping was
supplied". -/
theorem requestObj_empty_mapping_omits_key :
    pyTruthyArgs (some ([] : List (String × Json))) = false ∧
    (some ([] : List (String × Json))).isSome = true ∧
    pyLookup (requestObj "guest-ping" (some [])) "arguments" = none :=
  ⟨rfl, rfl, rfl⟩

/-- C3 (amended): `send_command` produces exactly one wire document
`\x7b"execute": <command>\x7d` whose `"arguments"` key is present iff a
NON-EMPTY arguments mapping was supplied (Python truthiness), followed by a
single terminator byte: the document contains no `'\n'` so the encoding
counts exactly one, and every character is ASCII, so characters are the wire
bytes.  Determinism is immediate: `encodeRequest` is a pure function. -/
theorem encodeRequest_wire_format (c : String) (args : Option (List (String × Json))) :
    pyLookup (requestObj c args) "execute" = some (.str c) ∧
    pyLookup (requestObj c args) "arguments" =
      (if pyTruthyArgs args then some (.obj (args.getD [])) else none) ∧
    encodeRequest c args = dumpsJson (.obj (requestObj c args)) ++ ['\n'] ∧
    (encodeRequest c args).count '\n' = 1 ∧
    (∀ ch ∈ encodeRequest c args, ch.toNat < 128) := by
  refine ⟨?_, ?_, rfl, ?_, ?_⟩
  · by_cases h : pyTruthyArgs args <;> simp [requestObj, h, pyLookup]
  · by_cases h : pyTruthyArgs args <;> simp [requestObj, h, pyLookup]
  · rw [encodeRequest, List.count_append]
    have h0 : (dumpsJson (.obj (requestObj c args))).count '\n' = 0 :=
      List.count_eq_zero.mpr (fun hmem => ((asciiNoNL_dumpsJson _) _ hmem).2 rfl)
    rw [h0]
    rfl
  · intro ch hch
    rw [encodeRequest] at hch
    rcases List.mem_append.mp hch with h | h
    · exact ((asciiNoNL_dumpsJson _) ch h).1
    · rcases List.mem_cons.mp h with rfl | h
      · decide
      · cases h

/-- C3 witness: the amended wire format at a concrete command. -/
theorem encodeRequest_wire_format_w :
    pyLookup (requestObj "guest-ping" none) "execute" = some (Json.str "guest-ping") ∧
    (encodeRequest "guest-ping" none).count '\n' = 1 :=
  ⟨(encodeRequest_wire_format "guest-ping" none).1,
   (encodeRequest_wire_format "guest-ping" none).2.2.2.1⟩

/-- C4 (confirmed): when the launch succeeds and the first status is exited
but lacks an `"exitcode"` field, `run_command` returns (rather than raising) a
result whose exitcode is `status.get("exitcode", -1) = -1`. -/
theorem runCommand_missing_exitcode_defaults (dec : String → Option String)
    (execReply : List (String × Json)) (statusAgent : List Char → Nat → List (String × Json))
    (p : ℚ) (n : Nat) (pid : Option Json) (sfs : List (String × Json))
    (hpid : execCommandPid execReply = .ok pid)
    (h0 : getExecStatus (statusAgent (execStatusRequest pid) 0) = .ok (.obj sfs))
    (hex : pyLookup sfs "exited" = some (.bool true))
    (hec : pyLookup sfs "exitcode" = none) :
    runCommand dec execReply statusAgent p (n + 1) = .ok (buildResult dec sfs) ∧
    (buildResult dec sfs).1.exitcode = .num (-1) := by
  constructor
  · simp only [runCommand, hpid]
    rw [runCommandLoop]
    simp only [h0, pyGet, hex, Option.getD, jsonTruthy, if_true]
  · simp [buildResult, pyGet, hec]

/-- C4 witness: the exitcode default at a concrete exited status. -/
theorem runCommand_missing_exitcode_defaults_w :
    runCommand (fun _ => none) [("return", Json.obj [("pid", Json.num 7)])]
        (fun _ _ => [("return", Json.obj [("exited", Json.bool true)])]) (1/10) 1 =
      .ok (buildResult (fun _ => none) [("exited", Json.bool true)]) ∧
    (buildResult (fun _ => none) [("exited", Json.bool true)]).1.exitcode = Json.num (-1) :=
  runCommand_missing_exitcode_defaults (fun _ => none)
    [("return", Json.obj [("pid", Json.num 7)])]
    (fun _ _ => [("return", Json.obj [("exited", Json.bool true)])]) (1/10) 0
    (some (Json.num 7)) [("exited", Json.bool true)] rfl rfl rfl rfl

/-- C5 (confirmed): both `QGAConnection.disconnect` and `QGAClient.disconnect`
never raise (they always produce `Except.ok`), are idempotent (a second
disconnect is a no-op), and are no-ops on a never-connected state. -/
theorem disconnect_idempotent :
    (∀ s : ConnState, ∃ s1 : ConnState, connectionDisconnect s = .ok s1) ∧
    (∀ s : ConnState, (connectionDisconnect s).bind connectionDisconnect =
        connectionDisconnect s) ∧
    connectionDisconnect ⟨false⟩ = .ok ⟨false⟩ ∧
    (∀ c : ClientState, ∃ c1 : ClientState, clientDisconnect c = .ok c1) ∧
    (∀ c : ClientState, (clientDisconnect c).bind clientDisconnect = clientDisconnect c) ∧
    clientDisconnect ⟨none⟩ = .ok ⟨none⟩ := by
  refine ⟨?_, ?_, rfl, ?_, ?_, rfl⟩
  · intro s
    exact ⟨_, rfl⟩
  · intro s
    rcases s with ⟨b⟩
    cases b <;> rfl
  · intro c
    rcases c with ⟨_ | c⟩ <;> exact ⟨_, rfl⟩
  · intro c
    rcases c with ⟨_ | c⟩ <;> rfl

/-- C6 (confirmed): an error reply whose `"error"` object carries
`"desc": d` raises `QGAProtocolError` with message `"QGA error: " ++ d`,
which contains `d` verbatim as a substring. -/
theorem errorReply_desc_verbatim (response efs : List (String × Json)) (d : String)
    (herr : pyLookup response "error" = some (.obj efs))
    (hdesc : pyLookup efs "desc" = some (.str d)) :
    classifyReply response = .error (.qgaProtocolError ("QGA error: " ++ d)) ∧
    ∃ pre suf : String, "QGA error: " ++ d = pre ++ d ++ suf := by
  refine ⟨?_, "QGA error: ", "", ?_⟩
  · simp [classifyReply, herr, hdesc, pyStr]
  · simp

/-- C6 witness: the claim's concrete scenario, `desc = "command not found"`. -/
theorem errorReply_desc_verbatim_w :
    classifyReply [("error", Json.obj [("desc", Json.str "command not found")])] =
      .error (.qgaProtocolError ("QGA error: " ++ "command not found")) ∧
    ∃ pre suf : String,
      "QGA error: " ++ "command not found" = pre ++ "command not found" ++ suf :=
  errorReply_desc_verbatim [("error", Json.obj [("desc", Json.str "command not found")])]
    [("desc", Json.str "command not found")] "command not found" rfl rfl

/-- C7 (confirmed): on any exited status, `run_command` returns the built
result rather than raising; the returned exitcode is `status.get("exitcode", -1)`
whatever the streams contain; and EACH of `out-data` / `err-data`
independently, whenever it is present and fails base64/UTF-8 decoding,
degrades to the empty string with a recorded warning — covering a status with
only one stream present, one failing stream, or both.  Any error from the
status call itself propagates instead of being recovered: output decoding is
the only locally recovered failure. -/
theorem runCommand_decode_failure_degrades (dec : String → Option String)
    (statusAt : Nat → Except PyError Json) (p : ℚ) (n : Nat)
    (sfs : List (String × Json))
    (h0 : statusAt 0 = .ok (.obj sfs))
    (hex : pyLookup sfs "exited" = some (.bool true)) :
    runCommandLoop dec statusAt p 0 (n + 1) = .ok (buildResult dec sfs) ∧
    (buildResult dec sfs).1.exitcode = pyGet sfs "exitcode" (.num (-1)) ∧
    (∀ ov : Json, pyLookup sfs "out-data" = some ov → decodeStream dec ov = none →
        (buildResult dec sfs).1.stdout = "" ∧
        "Failed to decode stdout" ∈ (buildResult dec sfs).2) ∧
    (∀ ev : Json, pyLookup sfs "err-data" = some ev → decodeStream dec ev = none →
        (buildResult dec sfs).1.stderr = "" ∧
        "Failed to decode stderr" ∈ (buildResult dec sfs).2) ∧
    (∀ (statusBad : Nat → Except PyError Json) (e : PyError), statusBad 0 = .error e →
        runCommandLoop dec statusBad p 0 (n + 1) = .error e) := by
  refine ⟨?_, ?_, ?_, ?_, ?_⟩
  · rw [runCommandLoop]
    simp only [h0, pyGet, hex, Option.getD, jsonTruthy, if_true]
  · simp [buildResult]
  · intro ov hov hof
    constructor
    · simp [buildResult, hov, hof]
    · simp [buildResult, hov, hof]
  · intro ev hev hef
    constructor
    · simp [buildResult, hev, hef]
    · simp [buildResult, hev, hef]
  · intro sb e he
    rw [runCommandLoop]
    simp only [he]

/-- C7 witness: a concrete exited status in which only `out-data` is present
and fails to decode (a non-string value), exercising the one-stream case. -/
theorem runCommand_decode_failure_degrades_w :
    runCommandLoop (fun _ => none)
        (fun _ => .ok (.obj [("exited", Json.bool true), ("out-data", Json.num 5),
          ("exitcode", Json.num 3)])) (1/10) 0 1 =
      .ok (buildResult (fun _ => none)
        [("exited", Json.bool true), ("out-data", Json.num 5), ("exitcode", Json.num 3)]) ∧
    (buildResult (fun _ => none)
      [("exited", Json.bool true), ("out-data", Json.num 5), ("exitcode", Json.num 3)]).1.stdout
      = "" ∧
    "Failed to decode stdout" ∈ (buildResult (fun _ => none)
      [("exited", Json.bool true), ("out-data", Json.num 5), ("exitcode", Json.num 3)]).2 ∧
    (buildResult (fun _ => none)
      [("exited", Json.bool true), ("out-data", Json.num 5), ("exitcode", Json.num 3)]).1.exitcode
      = pyGet [("exited", Json.bool true), ("out-data", Json.num 5), ("exitcode", Json.num 3)]
          "exitcode" (.num (-1)) := by
  have h := runCommand_decode_failure_degrades (fun _ => none)
      (fun _ => .ok (.obj [("exited", Json.bool true), ("out-data", Json.num 5),
        ("exitcode", Json.num 3)])) (1/10) 0
      [("exited", Json.bool true), ("out-data", Json.num 5), ("exitcode", Json.num 3)]
      rfl rfl
  have hs := h.2.2.1 (Json.num 5) rfl rfl
  exact ⟨h.1, hs.1, hs.2, h.2.1⟩

/-- C8 (confirmed): for EVERY successful `guest-exec` reply (no `"error"` key)
whose return payload lacks a `"pid"` field — whether `"return"` is an object
without that key or absent entirely — `exec_command` returns `None` without
raising, and `run_command` then polls with handle `None`: every status poll
sends the wire request
`\x7b"execute": "guest-exec-status", "arguments": \x7b"pid": null\x7d\x7d`
followed by the terminator. -/
theorem execCommand_missing_pid_polls_null (dec : String → Option String)
    (execReply rfs : List (String × Json))
    (statusAgent : List Char → Nat → List (String × Json)) (p : ℚ) (N : Nat)
    (herr : pyLookup execReply "error" = none)
    (hret : pyGet execReply "return" (.obj []) = .obj rfs)
    (hnp : pyLookup rfs "pid" = none) :
    execCommandPid execReply = .ok none ∧
    runCommand dec execReply statusAgent p N =
      runCommandLoop dec (fun i => getExecStatus (statusAgent (execStatusRequest none) i))
        p 0 N ∧
    execStatusRequest none = encodeRequest "guest-exec-status" (some [("pid", Json.null)]) ∧
    String.mk (execStatusRequest none) =
      "\x7b\"execute\": \"guest-exec-status\", \"arguments\": \x7b\"pid\": null\x7d\x7d\n" := by
  have hpid : execCommandPid execReply = .ok none := by
    simp only [execCommandPid, classifyReply, herr, hret, hnp]
  refine ⟨hpid, ?_, rfl, rfl⟩
  simp only [runCommand, hpid]

/-- C8 witness: a success reply whose return payload has fields but no
`"pid"`. -/
theorem execCommand_missing_pid_polls_null_w :
    execCommandPid [("return", Json.obj [("other", Json.num 1)])] = .ok none ∧
    runCommand (fun _ => none) [("return", Json.obj [("other", Json.num 1)])]
        (fun _ _ => []) (1/10) 1 =
      runCommandLoop (fun _ => none)
        (fun i => getExecStatus ((fun (_ : List Char) (_ : Nat) =>
          ([] : List (String × Json))) (execStatusRequest none) i)) (1/10) 0 1 := by
  have h := execCommand_missing_pid_polls_null (fun _ => none)
      [("return", Json.obj [("other", Json.num 1)])] [("other", Json.num 1)]
      (fun _ _ => []) (1/10) 1 rfl rfl rfl
  exact ⟨h.1, h.2.1⟩

/-- C9 (confirmed): the receive loop of `send_command` restores the configured
socket timeout on every path out of the short secondary read (extra data
received, peer closed, secondary deadline expired, or I/O error), so whatever
the recv outcomes and however `json.loads` behaves, the socket timeout after
the loop equals the configured value. -/
theorem recvLoop_restores_timeout (cfg : ℚ) (parseOk : List Char → Bool)
    (events : List RecvEvent) (buf : List Char) :
    (recvLoop cfg parseOk events buf cfg).1 = cfg := by
  suffices H : ∀ (n : Nat) (evs : List RecvEvent) (b : List Char), evs.length ≤ n →
      (recvLoop cfg parseOk evs b cfg).1 = cfg by
    exact H events.length events buf le_rfl
  intro n
  induction n with
  | zero =>
    intro evs b h
    have hnil : evs = [] := List.eq_nil_of_length_eq_zero (Nat.le_zero.mp h)
    subst hnil
    rfl
  | succ n ih =>
    intro evs b h
    match evs with
    | [] => rfl
    | .timedOut :: rest => rfl
    | .ioError :: rest => rfl
    | .closed :: rest => rfl
    | .chunk data :: rest =>
      match rest with
      | [] =>
        rw [recvLoop.eq_5]
        by_cases hp : parseOk (b ++ data) = true
        · rw [if_pos hp]
        · rw [if_neg hp]
          by_cases ht : bufLooksTerminated (b ++ data) = true
          · rw [if_pos ht]
          · rw [if_neg ht]
            rfl
      | .timedOut :: tail =>
        rw [recvLoop.eq_6]
        by_cases hp : parseOk (b ++ data) = true
        · rw [if_pos hp]
        · rw [if_neg hp]
          by_cases ht : bufLooksTerminated (b ++ data) = true
          · rw [if_pos ht]
          · rw [if_neg ht]
            refine ih (.timedOut :: tail) (b ++ data) ?_
            simp only [List.length_cons] at h ⊢
            omega
      | .closed :: tail =>
        rw [recvLoop.eq_7]
        by_cases hp : parseOk (b ++ data) = true
        · rw [if_pos hp]
        · rw [if_neg hp]
          by_cases ht : bufLooksTerminated (b ++ data) = true
          · rw [if_pos ht]
          · rw [if_neg ht]
            refine ih (.closed :: tail) (b ++ data) ?_
            simp only [List.length_cons] at h ⊢
            omega
      | .ioError :: tail =>
        rw [recvLoop.eq_8]
        by_cases hp : parseOk (b ++ data) = true
        · rw [if_pos hp]
        · rw [if_neg hp]
          by_cases ht : bufLooksTerminated (b ++ data) = true
          · rw [if_pos ht]
          · rw [if_neg ht]
            refine ih (.ioError :: tail) (b ++ data) ?_
            simp only [List.length_cons] at h ⊢
            omega
      | .chunk extra :: rest2 =>
        rw [recvLoop.eq_9]
        by_cases hp : parseOk (b ++ data) = true
        · rw [if_pos hp]
        · rw [if_neg hp]
          by_cases ht : bufLooksTerminated (b ++ data) = true
          · rw [if_pos ht]
            refine ih rest2 (b ++ data ++ extra) ?_
            simp only [List.length_cons] at h
            omega
          · rw [if_neg ht]
            refine ih (.chunk extra :: rest2) (b ++ data) ?_
            simp only [List.length_cons] at h ⊢
            omega

/-- C10 (confirmed): the `"arguments"` key is omitted whenever the mapping is
empty or absent (Python `if arguments:`), so an empty supplied mapping and no
mapping at all encode to identical wire bytes for every command name. -/
theorem encodeRequest_empty_args_eq_none (c : String) :
    encodeRequest c (some []) = encodeRequest c none := rfl


end QGAW
